import Mathlib

/-!
Shallow embedding of `src/project1/project1.py`, an Ames house-price
cross-validation script.

Data frames are modelled at the level the verified properties need: a list
of named, dtyped columns plus a row count.  Floating point is modelled by
the reals (and by the rationals where only ordering matters).  The numeric
fitting of the sklearn estimators is left abstract (a parameter giving the
fitted model's per-row prediction), while the library semantics the script
relies on are embedded faithfully: `pandas.read_csv` with a dtype override
and `DataFrame.drop` with `errors="raise"`, sklearn pipelines fitting their
steps in place without cloning, `OneHotEncoder(handle_unknown="ignore")`,
`StandardScaler`, and the script's own control flow, fold loop and RMSE
summary.
-/

/-- Pandas column dtype at the granularity the script uses: `object`
(categorical) versus any numeric dtype. -/
inductive Dtype
  | object
  | numeric
deriving DecidableEq

/-- A data frame as the loader-level properties see it: named, dtyped
columns and a row count. -/
structure Frame where
  cols : List (String × Dtype)
  nrows : Nat
deriving DecidableEq

/-- Errors raised by the underlying I/O, data-frame and interpreter
machinery. -/
inductive PyError
  | fileNotFound (path : String)
  | keyError (key : String)
  | nameError (n : String)
deriving DecidableEq

/-- The file system: maps a path to the raw frame parsed from the CSV at
that path (with pandas-inferred dtypes), if the file exists. -/
def FS : Type := String → Option Frame

/-- `DataLoader.RESPONSE_VAR` (line 17). -/
def RESPONSE_VAR : String := "Sale_Price"

/-- `DataLoader.CATEGORICALS` (lines 18-21): numeric-looking columns that
must be treated as categories. -/
def CATEGORICALS : List String :=
  ["Year_Built", "Year_Remod_Add", "Garage_Yr_Blt", "Mo_Sold", "Year_Sold"]

/-- `DataLoader.DROP_COLS` (lines 22-25): columns excluded from modeling. -/
def DROP_COLS : List String :=
  ["Street", "Utilities", "Condition_2", "Roof_Matl", "Heating", "Pool_QC",
   "Misc_Feature", "Low_Qual_Fin_SF", "Pool_Area", "Latitude", "Longitude"]

/-- `DataLoader.__init__` (lines 27-32) builds `dtype_dict` mapping every
column of `CATEGORICALS` to `"O"` (object).  Passing it to `read_csv`
forces those columns to object dtype, whatever dtype inference would have
produced; keys absent from the file are ignored by pandas. -/
def applyDtypeDict (f : Frame) : Frame :=
  { f with cols := f.cols.map (fun p => if p.1 ∈ CATEGORICALS then (p.1, Dtype.object) else p) }

/-- `pd.read_csv(path, index_col=0, ...)`: fails if the file is missing;
`dtypeOverride` records whether `self.dtype_dict` is passed (it is for
`train.csv` and `test.csv` at lines 38 and 48, not for `test_y.csv` at
line 61). -/
def read_csv (fs : FS) (path : String) (dtypeOverride : Bool) : Except PyError Frame :=
  match fs path with
  | none => Except.error (PyError.fileNotFound path)
  | some f => Except.ok (if dtypeOverride then applyDtypeDict f else f)

/-- Whether the frame has a column named `c`. -/
def hasCol (f : Frame) (c : String) : Bool :=
  f.cols.any (fun p => p.1 == c)

/-- `df.drop(columns=cs)` with the default `errors="raise"`: a `KeyError`
if any requested label is absent, otherwise every column bearing a listed
name is removed. -/
def drop_columns (f : Frame) (cs : List String) : Except PyError Frame :=
  match cs.find? (fun c => !(hasCol f c)) with
  | some c => Except.error (PyError.keyError c)
  | none => Except.ok { f with cols := f.cols.filter (fun p => !(cs.contains p.1)) }

/-- `DataLoader._clean_data` (lines 34-50).  `train_y`, a log-transformed
pandas Series, is modelled by its length; selecting
`df_train[RESPONSE_VAR]` raises a `KeyError` when the response column is
absent.  Returns `(train_X, train_y, test_X)`. -/
def _clean_data (fs : FS) (stem : String) : Except PyError (Frame × Nat × Frame) :=
  match read_csv fs (stem ++ "/train.csv") true with
  | Except.error e => Except.error e
  | Except.ok df_train =>
    if hasCol df_train RESPONSE_VAR then
      match drop_columns df_train [RESPONSE_VAR] with
      | Except.error e => Except.error e
      | Except.ok t1 =>
        match drop_columns t1 DROP_COLS with
        | Except.error e => Except.error e
        | Except.ok train_X =>
          match read_csv fs (stem ++ "/test.csv") true with
          | Except.error e => Except.error e
          | Except.ok test0 =>
            match drop_columns test0 DROP_COLS with
            | Except.error e => Except.error e
            | Except.ok test_X => Except.ok (train_X, df_train.nrows, test_X)
    else Except.error (PyError.keyError RESPONSE_VAR)

/-- `DataLoader.get_prediction_data` (lines 52-53): cleans the data found
at the project root (`Path.cwd()`). -/
def get_prediction_data (fs : FS) : Except PyError (Frame × Nat × Frame) :=
  _clean_data fs "."

/-- `DataLoader.get_fold_data` (lines 55-63): cleans the data of fold
directory `foldN` and additionally loads `test_y.csv` (without the dtype
override) and log-transforms it (shape-preserving). -/
def get_fold_data (fs : FS) (fold : Nat) : Except PyError (Frame × Nat × Frame × Frame) :=
  match _clean_data fs ("project1/proj1/fold" ++ toString fold) with
  | Except.error e => Except.error e
  | Except.ok (train_X, train_y, test_X) =>
    match read_csv fs ("project1/proj1/fold" ++ toString fold ++ "/test_y.csv") false with
    | Except.error e => Except.error e
    | Except.ok test_y => Except.ok (train_X, train_y, test_X, test_y)

/-- The mutable state of the `ColumnTransformer` object: what training
data it is currently fitted on (none when unfit) and how many times it has
been fitted. -/
structure PreState where
  fittedOn : Option Frame
  fitCount : Nat
deriving DecidableEq

/-- The `ColumnTransformer` built by `make_preprocessor`: the dtype-based
column partition plus the mutable fitted state. -/
structure Preprocessor where
  categorical_columns : List String
  numerical_columns : List String
  state : PreState
deriving DecidableEq

/-- `DataLoader.make_preprocessor` (lines 65-80): partitions the training
frame's columns with `selector(dtype_include=object)` /
`selector(dtype_exclude=object)` and returns a fresh, unfit transformer. -/
def make_preprocessor (train_X : Frame) : Preprocessor :=
  { categorical_columns := (train_X.cols.filter (fun p => p.2 == Dtype.object)).map Prod.fst
  , numerical_columns := (train_X.cols.filter (fun p => !(p.2 == Dtype.object))).map Prod.fst
  , state := { fittedOn := none, fitCount := 0 } }

/-- The `handle_unknown` policy of `sklearn.preprocessing.OneHotEncoder`
(its default is `"error"`; line 70 selects `"ignore"`). -/
inductive HandleUnknown
  | raiseOnUnknown
  | ignore
deriving DecidableEq

/-- One-hot encoding of a single value against the category list learned
at fit time: a known value yields its indicator vector; an unknown value
raises under `handle_unknown="error"` and yields the all-zero vector under
`handle_unknown="ignore"`. -/
def oneHotTransformValue (hu : HandleUnknown) (categories : List String) (v : String) :
    Except String (List ℚ) :=
  if categories.contains v then
    Except.ok (categories.map (fun c => if c == v then (1 : ℚ) else 0))
  else
    match hu with
    | HandleUnknown.raiseOnUnknown => Except.error "Found unknown categories"
    | HandleUnknown.ignore => Except.ok (categories.map (fun _ => (0 : ℚ)))

/-- Line 70: `categorical_preprocessor = OneHotEncoder(handle_unknown="ignore")`. -/
def categorical_preprocessor : List String → String → Except String (List ℚ) :=
  oneHotTransformValue HandleUnknown.ignore

/-- Arithmetic mean of a list of reals (`np.mean`; sklearn's `mean_`). -/
noncomputable def meanR (l : List ℝ) : ℝ := l.sum / l.length

/-- Population variance (`ddof=0`), as used by `StandardScaler.var_`. -/
noncomputable def popVar (l : List ℝ) : ℝ :=
  ((l.map (fun x => (x - meanR l) ^ 2)).sum) / l.length

/-- `StandardScaler.scale_`: the square root of the variance, with zero
variance replaced by 1 (sklearn `_handle_zeros_in_scale`). -/
noncomputable def scalerScale (l : List ℝ) : ℝ :=
  if popVar l = 0 then 1 else Real.sqrt (popVar l)

/-- Transforming a numerical column by a `StandardScaler` fitted on that
same column: `(x - mean_) / scale_` elementwise (line 71 via line 78). -/
noncomputable def standardScaler_transform (l : List ℝ) : List ℝ :=
  l.map (fun x => (x - meanR l) / scalerScale l)

/-- Population standard deviation of a list of reals. -/
noncomputable def stdR (l : List ℝ) : ℝ := Real.sqrt (popVar l)

/-- The response transform of the loader: `np.log` applied to the
`Sale_Price` training column (line 40) and to `test_y` (line 62). -/
noncomputable def log_transform_response (p : ℝ) : ℝ := Real.log p

/-- The module-level global environment read by the prediction functions:
`test_X` is a free (module-level) variable inside `predict_regression` and
`predict_tree`; it is only ever bound by the destructuring assignments at
lines 116 and 130. -/
structure Globals where
  test_X : Option Frame

/-- Observable events of a run, for stating trace properties. -/
inductive Event
  | loadFold (k : Nat)
  | loadRoot
  | fitPreprocessor (data : Frame)
  | predictTest (fittedOn : Option Frame) (test : Frame)
  | writeOutput (path : String)
deriving DecidableEq

/-- `make_pipeline(preprocessor, estimator).fit(train_X, train_y)`:
sklearn pipelines do not clone their steps, so fitting the pipeline fits
the shared `ColumnTransformer` object in place on `train_X`
(incrementing its fit count). -/
def pipeline_fit (pre : Preprocessor) (train_X : Frame) : Preprocessor × Event :=
  ({ pre with state := { fittedOn := some train_X, fitCount := pre.state.fitCount + 1 } },
   Event.fitPreprocessor train_X)

/-- `predict_regression` (lines 83-86).  `fitted` abstracts the numeric
behaviour of the fitted `ElasticNet(alpha=0.001, l1_ratio=0.1,
max_iter=10000)` pipeline: `fitted tX i` is its prediction for row `i` of
frame `tX`.  The function takes no test-data parameter: `test_X` at line
86 is resolved in the global environment `g`, raising a `NameError` when
unbound.  Returns the preprocessor's state after the call, the emitted
events and the value of the call. -/
def predict_regression (fitted : Frame → Nat → ℝ) (g : Globals) (train_X : Frame)
    (train_y : Nat) (preprocessor : Preprocessor) :
    Preprocessor × List Event × Except PyError (List ℝ) :=
  let fitRes := pipeline_fit preprocessor train_X
  match g.test_X with
  | none => (fitRes.1, [fitRes.2], Except.error (PyError.nameError "test_X"))
  | some tX =>
      (fitRes.1, [fitRes.2, Event.predictTest fitRes.1.state.fittedOn tX],
       Except.ok ((List.range tX.nrows).map (fitted tX)))

/-- `predict_tree` (lines 88-91): same shape as `predict_regression`, with
`fitted` abstracting the fitted `LinearRegression(n_jobs=4)` pipeline; it
likewise reads the global `test_X`. -/
def predict_tree (fitted : Frame → Nat → ℝ) (g : Globals) (train_X : Frame)
    (train_y : Nat) (preprocessor : Preprocessor) :
    Preprocessor × List Event × Except PyError (List ℝ) :=
  let fitRes := pipeline_fit preprocessor train_X
  match g.test_X with
  | none => (fitRes.1, [fitRes.2], Except.error (PyError.nameError "test_X"))
  | some tX =>
      (fitRes.1, [fitRes.2, Event.predictTest fitRes.1.state.fittedOn tX],
       Except.ok ((List.range tX.nrows).map (fitted tX)))

/-- One iteration of the fold loop (lines 116-126): bind the fold's data
(line 116 also rebinds the global `test_X`), build a fresh preprocessor,
then run both prediction functions against the same preprocessor object.
Returns the preprocessor object's final state and the fold's event
trace. -/
def fold_iteration (fittedR fittedT : Frame → Nat → ℝ) (train_X : Frame) (train_y : Nat)
    (test_X : Frame) : Preprocessor × List Event :=
  let g : Globals := { test_X := some test_X }
  let pre0 := make_preprocessor train_X
  let r1 := predict_regression fittedR g train_X train_y pre0
  let r2 := predict_tree fittedT g train_X train_y r1.1
  (r2.1, r1.2.1 ++ r2.2.1)

/-- The cross-validation loop (lines 110-126) over a list of fold numbers,
accumulating the event trace: each iteration loads the fold's data (a
failure aborts the whole loop with that error) and runs both pipelines. -/
def cv_loop (fs : FS) (fittedR fittedT : Frame → Nat → ℝ) :
    List Nat → List Event → List Event × Except PyError Unit
  | [], acc => (acc, Except.ok ())
  | k :: ks, acc =>
    match get_fold_data fs k with
    | Except.error e => (acc ++ [Event.loadFold k], Except.error e)
    | Except.ok (train_X, train_y, test_X, _test_y) =>
      cv_loop fs fittedR fittedT ks
        (acc ++ Event.loadFold k :: (fold_iteration fittedR fittedT train_X train_y test_X).2)

/-- `__main__` (lines 106-130).  With `test_folds = True`: the ten-fold
loop over `fold+1` for `fold in range(10)`, followed by the console-only
`summarize_rmse` calls.  With `test_folds = False` (line 129-130): the
body is the single statement `train_X, train_y, test_X =
dl.get_prediction_data()` - a root-directory data load and nothing else.
No branch ever emits a `writeOutput` event. -/
def main_run (test_folds : Bool) (fs : FS) (fittedR fittedT : Frame → Nat → ℝ) :
    List Event × Except PyError Unit :=
  if test_folds then
    cv_loop fs fittedR fittedT ((List.range 10).map (fun k => k + 1)) []
  else
    match get_prediction_data fs with
    | Except.error e => ([Event.loadRoot], Except.error e)
    | Except.ok _ => ([Event.loadRoot], Except.ok ())

/-- Maximum of a list of rationals (Python `max` on a nonempty sequence;
0 on the empty list, which the script never queries). -/
def listMax : List ℚ → ℚ
  | [] => 0
  | [x] => x
  | x :: y :: ys => max x (listMax (y :: ys))

/-- Minimum of a list of rationals (Python `min`). -/
def listMin : List ℚ → ℚ
  | [] => 0
  | [x] => x
  | x :: y :: ys => min x (listMin (y :: ys))

/-- `np.argmax`: index of the first occurrence of the maximum (0 on the
empty list, where numpy would raise). -/
def npArgmax : List ℚ → Nat
  | [] => 0
  | [_] => 0
  | x :: y :: ys => if listMax (y :: ys) > x then npArgmax (y :: ys) + 1 else 0

/-- `np.mean` over rationals. -/
def meanQ (l : List ℚ) : ℚ := l.sum / l.length

/-- One printed block of `summarize_rmse`: the half itself, its range, its
mean and the reported worst fold number. -/
structure HalfSummary where
  half : List ℚ
  rangeLo : ℚ
  rangeHi : ℚ
  meanVal : ℚ
  worstFold : Nat
deriving DecidableEq

/-- `summarize_rmse` (lines 93-103): `start_idx = (0, n // 2)`, the halves
are the slices `[0:n//2]` and `[n//2:]`, and each block reports
`Range (min, max)`, `Mean`, and `Worst: Fold (np.argmax(half) + idx + 1)`
for `idx` the half's start offset. -/
def summarize_rmse (rmse_array : List ℚ) : List HalfSummary :=
  let n2 := rmse_array.length / 2
  let first_half := rmse_array.take n2
  let second_half := rmse_array.drop n2
  [ { half := first_half, rangeLo := listMin first_half, rangeHi := listMax first_half,
      meanVal := meanQ first_half, worstFold := npArgmax first_half + 0 + 1 },
    { half := second_half, rangeLo := listMin second_half, rangeHi := listMax second_half,
      meanVal := meanQ second_half, worstFold := npArgmax second_half + n2 + 1 } ]

/-! Concrete fixtures used to instantiate the verified properties. -/

/-- The drop-list columns, all with numeric dtype, as they would be parsed
from a raw CSV. -/
def dropColsNumeric : List (String × Dtype) := DROP_COLS.map (fun c => (c, Dtype.numeric))

/-- A raw root `train.csv`: response, one categorical-override column
(parsed numeric before the override), one ordinary numeric column, and the
full drop list. -/
def trainFileRoot : Frame :=
  { cols := ("Sale_Price", Dtype.numeric) :: ("Year_Built", Dtype.numeric) ::
      ("Gr_Liv_Area", Dtype.numeric) :: dropColsNumeric
  , nrows := 3 }

/-- A raw root `test.csv` without the response column. -/
def testFileRoot : Frame :=
  { cols := ("Year_Built", Dtype.numeric) :: ("Gr_Liv_Area", Dtype.numeric) :: dropColsNumeric
  , nrows := 2 }

/-- A raw `test.csv` that does contain the response column. -/
def testFileLeaky : Frame :=
  { cols := ("Sale_Price", Dtype.numeric) :: ("Year_Built", Dtype.numeric) :: dropColsNumeric
  , nrows := 2 }

/-- A file system holding a complete root-directory dataset. -/
def fsRoot : FS := fun p =>
  if p = "./train.csv" then some trainFileRoot
  else if p = "./test.csv" then some testFileRoot
  else none

/-- A file system whose root `test.csv` still carries `Sale_Price`. -/
def fsLeaky : FS := fun p =>
  if p = "./train.csv" then some trainFileRoot
  else if p = "./test.csv" then some testFileLeaky
  else none

/-- The empty file system: every read fails. -/
def fsEmpty : FS := fun _ => none

/-- The cleaned training predictors produced from `fsRoot`. -/
def trainCleanRoot : Frame :=
  { cols := [("Year_Built", Dtype.object), ("Gr_Liv_Area", Dtype.numeric)], nrows := 3 }

/-- The cleaned test predictors produced from `fsRoot`. -/
def testCleanRoot : Frame :=
  { cols := [("Year_Built", Dtype.object), ("Gr_Liv_Area", Dtype.numeric)], nrows := 2 }

/-- The cleaned test predictors produced from `fsLeaky`: the response
column passes through untouched. -/
def testCleanLeaky : Frame :=
  { cols := [("Sale_Price", Dtype.numeric), ("Year_Built", Dtype.object)], nrows := 2 }

/-- A trivial abstract fitted model. -/
def zeroModel : Frame → Nat → ℝ := fun _ _ => 0

/-- An empty frame and a one-row frame, used to exhibit distinct global
`test_X` bindings. -/
def frameEmpty : Frame := { cols := [], nrows := 0 }

/-- A one-row frame with no columns. -/
def frameOneRow : Frame := { cols := [], nrows := 1 }

/-- Recognizer for preprocessor-fit events. -/
def isFitEvent : Event → Bool
  | Event.fitPreprocessor _ => true
  | _ => false

/-- Recognizer for test-prediction events. -/
def isPredictEvent : Event → Bool
  | Event.predictTest _ _ => true
  | _ => false

/-- Recognizer for output-file events. -/
def isWriteEvent : Event → Bool
  | Event.writeOutput _ => true
  | _ => false

/-! Verified properties. -/

/-- C5: for every fitted one-hot encoder and every value absent from the
categories learned at fit time, the script's encoder
(`OneHotEncoder(handle_unknown="ignore")`, line 70) raises no error and
produces the all-zero indicator vector over the known categories. -/
theorem c5_one_hot_unknown_ignored (categories : List String) (v : String)
    (h : categories.contains v = false) :
    categorical_preprocessor categories v =
      Except.ok (categories.map (fun _ => (0 : ℚ))) := by
  have hm : ¬ v ∈ categories := by simpa using h
  simp [categorical_preprocessor, oneHotTransformValue, hm]

/-- Witness for C5 at a concrete fitted encoder and unknown value. -/
theorem c5_witness :
    (["RL", "RM"].contains "FV" = false)
  ∧ categorical_preprocessor ["RL", "RM"] "FV" =
      Except.ok (["RL", "RM"].map (fun _ => (0 : ℚ))) :=
  ⟨by decide, c5_one_hot_unknown_ignored ["RL", "RM"] "FV" (by decide)⟩

/-- C9: exponentiating the loader's log-transformed response reproduces
any positive sale price exactly (the real-valued model of the
floating-point round trip). -/
theorem c9_log_round_trip (p : ℝ) (hp : 0 < p) :
    Real.exp (log_transform_response p) = p :=
  Real.exp_log hp

/-- Witness for C9 at the concrete price 2. -/
theorem c9_witness :
    (0 : ℝ) < 2 ∧ Real.exp (log_transform_response 2) = 2 :=
  ⟨by norm_num, c9_log_round_trip 2 (by norm_num)⟩

/-- C10: `predict_regression` and `predict_tree` take no test-data
parameter and resolve `test_X` in the module-level global environment.
With `test_X` unbound both fail with a `NameError`, and for a fixed
`(train_X, train_y, preprocessor)` triple there are two global bindings of
`test_X` under which each function returns different predictions -
whatever the numeric behaviour of the fitted estimators. -/
theorem c10_predict_reads_global (fR fT : Frame → Nat → ℝ) (train_X : Frame) (train_y : Nat)
    (pre : Preprocessor) (g0 : Globals) (h : g0.test_X = none) :
    (predict_regression fR g0 train_X train_y pre).2.2 =
      Except.error (PyError.nameError "test_X")
  ∧ (predict_tree fT g0 train_X train_y pre).2.2 =
      Except.error (PyError.nameError "test_X")
  ∧ ∃ g1 g2 : Globals, g1.test_X ≠ g2.test_X
      ∧ (predict_regression fR g1 train_X train_y pre).2.2 ≠
          (predict_regression fR g2 train_X train_y pre).2.2
      ∧ (predict_tree fT g1 train_X train_y pre).2.2 ≠
          (predict_tree fT g2 train_X train_y pre).2.2 := by
  refine ⟨by simp [predict_regression, h], by simp [predict_tree, h], ?_⟩
  refine ⟨{ test_X := some frameEmpty }, { test_X := some frameOneRow }, ?_, ?_, ?_⟩
  · simp [frameEmpty, frameOneRow]
  · simp [predict_regression, frameEmpty, frameOneRow, List.range_succ]
  · simp [predict_tree, frameEmpty, frameOneRow, List.range_succ]

/-- Witness for C10 at concrete arguments and the unbound-global
environment. -/
theorem c10_witness :
    ({ test_X := none : Globals }.test_X = none)
  ∧ ((predict_regression zeroModel { test_X := none } frameEmpty 0
        (make_preprocessor frameEmpty)).2.2 =
      Except.error (PyError.nameError "test_X")
  ∧ (predict_tree zeroModel { test_X := none } frameEmpty 0
        (make_preprocessor frameEmpty)).2.2 =
      Except.error (PyError.nameError "test_X")
  ∧ ∃ g1 g2 : Globals, g1.test_X ≠ g2.test_X
      ∧ (predict_regression zeroModel g1 frameEmpty 0 (make_preprocessor frameEmpty)).2.2 ≠
          (predict_regression zeroModel g2 frameEmpty 0 (make_preprocessor frameEmpty)).2.2
      ∧ (predict_tree zeroModel g1 frameEmpty 0 (make_preprocessor frameEmpty)).2.2 ≠
          (predict_tree zeroModel g2 frameEmpty 0 (make_preprocessor frameEmpty)).2.2) :=
  ⟨rfl, c10_predict_reads_global zeroModel zeroModel frameEmpty 0
      (make_preprocessor frameEmpty) { test_X := none } rfl⟩

/-- C2 (counterexample): within one concrete fold iteration the shared
`ColumnTransformer` is fitted twice - once by each model pipeline's
`fit`, since sklearn pipelines fit their steps in place without cloning -
not exactly once as claimed. -/
theorem c2_counterexample :
    ((fold_iteration zeroModel zeroModel frameEmpty 0 frameEmpty).2.countP isFitEvent = 2)
  ∧ ((fold_iteration zeroModel zeroModel frameEmpty 0 frameEmpty).2.countP isFitEvent ≠ 1) := by
  constructor <;> decide

/-- C2 (amended): within each fold iteration the preprocessor is fitted
once per model pipeline (twice in total), every fit is on that fold's
training data, and both test predictions are made with the preprocessor
fitted on that fold's training data; its final state records exactly
that. -/
theorem c2_fold_preprocessor_fits (fR fT : Frame → Nat → ℝ) (train_X : Frame)
    (train_y : Nat) (test_X : Frame) :
    (fold_iteration fR fT train_X train_y test_X).2 =
      [Event.fitPreprocessor train_X, Event.predictTest (some train_X) test_X,
       Event.fitPreprocessor train_X, Event.predictTest (some train_X) test_X]
  ∧ (fold_iteration fR fT train_X train_y test_X).1.state =
      { fittedOn := some train_X, fitCount := 2 } := by
  exact ⟨rfl, rfl⟩

/-- C6 (counterexample): with `test_folds = False` and a complete
root-directory dataset the run emits no preprocessor-fit and no
test-prediction event - the claimed "fitting and predicting" never
happen; the whole mode is the single data-loading statement of line
130. -/
theorem c6_counterexample :
    (main_run false fsRoot zeroModel zeroModel).1.countP isFitEvent = 0
  ∧ (main_run false fsRoot zeroModel zeroModel).1.countP isPredictEvent = 0
  ∧ (main_run false fsRoot zeroModel zeroModel).2 = Except.ok () := by
  refine ⟨by decide, by decide, rfl⟩

/-- C6 (amended): when `test_folds` is `False` the program only loads the
root-directory train and test data: its trace is the single root-load
event, with no preprocessor fit, no test prediction, and no output file
written, whatever the file system contains. -/
theorem c6_prediction_mode_only_loads (fs : FS) (fR fT : Frame → Nat → ℝ) :
    (main_run false fs fR fT).1 = [Event.loadRoot]
  ∧ (main_run false fs fR fT).1.countP isFitEvent = 0
  ∧ (main_run false fs fR fT).1.countP isPredictEvent = 0
  ∧ (main_run false fs fR fT).1.countP isWriteEvent = 0 := by
  have h1 : (main_run false fs fR fT).1 = [Event.loadRoot] := by
    cases h : get_prediction_data fs with
    | error e => simp [main_run, h]
    | ok v => simp [main_run, h]
  refine ⟨h1, ?_, ?_, ?_⟩ <;> rw [h1] <;> rfl

/-! Lemmas about the loader primitives. -/

/-- Column membership, unfolded. -/
theorem hasCol_iff (f : Frame) (c : String) :
    hasCol f c = true ↔ ∃ p ∈ f.cols, p.1 = c := by
  simp [hasCol, List.any_eq_true]

/-- Column absence, unfolded. -/
theorem hasCol_false_iff (f : Frame) (c : String) :
    hasCol f c = false ↔ ∀ p ∈ f.cols, p.1 ≠ c := by
  simp [hasCol, List.any_eq_false]

/-- The dtype override renames no column. -/
theorem applyDtypeDict_hasCol (f : Frame) (c : String) :
    hasCol (applyDtypeDict f) c = hasCol f c := by
  cases f with
  | mk cols n =>
    induction cols with
    | nil => rfl
    | cons p t ih =>
      simp only [hasCol, applyDtypeDict, List.map_cons, List.any_cons] at ih ⊢
      have hfst : (if p.1 ∈ CATEGORICALS then (p.1, Dtype.object) else p).1 = p.1 := by
        split <;> rfl
      rw [hfst, ih]

/-- A column of the categorical-override list carries object dtype after
the override, whatever dtype the raw file assigned it. -/
theorem applyDtypeDict_object (f : Frame) (c : String) (d : Dtype)
    (hc : c ∈ CATEGORICALS) (hmem : (c, d) ∈ (applyDtypeDict f).cols) :
    d = Dtype.object := by
  simp only [applyDtypeDict, List.mem_map] at hmem
  obtain ⟨p, _, hp⟩ := hmem
  by_cases hin : p.1 ∈ CATEGORICALS
  · rw [if_pos hin] at hp
    cases hp
    rfl
  · rw [if_neg hin] at hp
    cases hp
    exact absurd hc hin

/-- Successful `drop` inverted: the kept columns are the ones whose name
is not listed. -/
theorem drop_columns_ok (f : Frame) (cs : List String) (g : Frame)
    (h : drop_columns f cs = Except.ok g) :
    g.cols = f.cols.filter (fun p => !(cs.contains p.1)) ∧ g.nrows = f.nrows := by
  unfold drop_columns at h
  cases hf : cs.find? (fun c => !(hasCol f c)) with
  | some c => rw [hf] at h; simp at h
  | none =>
    rw [hf] at h
    injection h with h
    rw [← h]
    exact ⟨rfl, rfl⟩

/-- A dropped label is absent from the result. -/
theorem drop_columns_dropped (f : Frame) (cs : List String) (g : Frame) (c : String)
    (h : drop_columns f cs = Except.ok g) (hc : c ∈ cs) :
    hasCol g c = false := by
  rw [hasCol_false_iff]
  intro p hp hpc
  rw [(drop_columns_ok f cs g h).1] at hp
  have := (List.mem_filter.mp hp).2
  rw [hpc] at this
  simp [hc] at this

/-- Dropping columns never introduces a column. -/
theorem drop_columns_mono (f : Frame) (cs : List String) (g : Frame) (p : String × Dtype)
    (h : drop_columns f cs = Except.ok g) (hp : p ∈ g.cols) :
    p ∈ f.cols := by
  rw [(drop_columns_ok f cs g h).1] at hp
  exact (List.mem_filter.mp hp).1

/-- A column absent before a drop is absent after it. -/
theorem drop_columns_absent (f : Frame) (cs : List String) (g : Frame) (c : String)
    (h : drop_columns f cs = Except.ok g) (hc : hasCol f c = false) :
    hasCol g c = false := by
  rw [hasCol_false_iff] at hc ⊢
  intro p hp
  exact hc p (drop_columns_mono f cs g p h hp)

/-- A kept column whose name is not listed survives a drop. -/
theorem drop_columns_keeps (f : Frame) (cs : List String) (g : Frame) (p : String × Dtype)
    (h : drop_columns f cs = Except.ok g) (hp : p ∈ f.cols) (hn : ¬ p.1 ∈ cs) :
    p ∈ g.cols := by
  rw [(drop_columns_ok f cs g h).1]
  exact List.mem_filter.mpr ⟨hp, by simp [hn]⟩

/-- Successful `read_csv` with the dtype dict inverted. -/
theorem read_csv_ok_override (fs : FS) (path : String) (f : Frame)
    (h : read_csv fs path true = Except.ok f) :
    ∃ f0, fs path = some f0 ∧ f = applyDtypeDict f0 := by
  unfold read_csv at h
  cases hf : fs path with
  | none => rw [hf] at h; simp at h
  | some f0 =>
    rw [hf] at h
    injection h with h
    exact ⟨f0, rfl, by rw [← h]; rfl⟩

/-- Successful `_clean_data` inverted into its five underlying steps. -/
theorem clean_data_ok (fs : FS) (stem : String) (train_X : Frame) (train_y : Nat)
    (test_X : Frame) (h : _clean_data fs stem = Except.ok (train_X, train_y, test_X)) :
    ∃ f0 t1 g0,
      fs (stem ++ "/train.csv") = some f0
      ∧ hasCol (applyDtypeDict f0) RESPONSE_VAR = true
      ∧ drop_columns (applyDtypeDict f0) [RESPONSE_VAR] = Except.ok t1
      ∧ drop_columns t1 DROP_COLS = Except.ok train_X
      ∧ fs (stem ++ "/test.csv") = some g0
      ∧ drop_columns (applyDtypeDict g0) DROP_COLS = Except.ok test_X := by
  unfold _clean_data at h
  split at h
  · simp at h
  rename_i df heq1
  obtain ⟨f0, hf0, hdf⟩ := read_csv_ok_override fs (stem ++ "/train.csv") df heq1
  split at h
  case isFalse => simp at h
  rename_i hresp
  split at h
  · simp at h
  rename_i t1 heq3
  split at h
  · simp at h
  rename_i trX heq4
  split at h
  · simp at h
  rename_i te0 heq5
  obtain ⟨g0, hg0, hte⟩ := read_csv_ok_override fs (stem ++ "/test.csv") te0 heq5
  split at h
  · simp at h
  rename_i teX heq6
  simp only [Except.ok.injEq, Prod.mk.injEq] at h
  obtain ⟨hA, _hB, hC⟩ := h
  subst hdf
  subst hte
  subst hA
  subst hC
  exact ⟨f0, t1, g0, hf0, hresp, heq3, heq4, hg0, heq6⟩

/-- C3 (counterexample): the loader drops the response column only from
the training frame; a `test.csv` that carries `Sale_Price` is returned
with `Sale_Price` still among the test predictors. -/
theorem c3_counterexample :
    _clean_data fsLeaky "." = Except.ok (trainCleanRoot, 3, testCleanLeaky)
  ∧ hasCol testCleanLeaky RESPONSE_VAR = true := by
  exact ⟨rfl, by decide⟩

/-- C3 (amended): whenever `_clean_data` succeeds, neither returned frame
contains any drop-list column, the training frame does not contain the
response column, and the test frame contains the response column only if
the raw test file already did (the loader never drops it from the test
side). -/
theorem c3_dropped_and_response_columns (fs : FS) (stem : String) (train_X : Frame)
    (train_y : Nat) (test_X : Frame)
    (h : _clean_data fs stem = Except.ok (train_X, train_y, test_X)) :
    (∀ c ∈ DROP_COLS, hasCol train_X c = false ∧ hasCol test_X c = false)
  ∧ hasCol train_X RESPONSE_VAR = false
  ∧ (hasCol test_X RESPONSE_VAR = true →
      ∃ f, fs (stem ++ "/test.csv") = some f ∧ hasCol f RESPONSE_VAR = true) := by
  obtain ⟨f0, t1, g0, hf0, hresp, h3, h4, hg0, h6⟩ :=
    clean_data_ok fs stem train_X train_y test_X h
  refine ⟨?_, ?_, ?_⟩
  · intro c hc
    exact ⟨drop_columns_dropped _ _ _ c h4 hc, drop_columns_dropped _ _ _ c h6 hc⟩
  · have h1 : hasCol t1 RESPONSE_VAR = false :=
      drop_columns_dropped _ _ _ RESPONSE_VAR h3 (by simp)
    exact drop_columns_absent _ _ _ RESPONSE_VAR h4 h1
  · intro hte
    refine ⟨g0, hg0, ?_⟩
    rw [hasCol_iff] at hte
    obtain ⟨p, hp, hpc⟩ := hte
    have hp0 := drop_columns_mono _ _ _ p h6 hp
    rw [← applyDtypeDict_hasCol, hasCol_iff]
    exact ⟨p, hp0, hpc⟩

/-- Witness for the amended C3 at the concrete root dataset. -/
theorem c3_witness :
    _clean_data fsRoot "." = Except.ok (trainCleanRoot, 3, testCleanRoot)
  ∧ ((∀ c ∈ DROP_COLS, hasCol trainCleanRoot c = false ∧ hasCol testCleanRoot c = false)
     ∧ hasCol trainCleanRoot RESPONSE_VAR = false
     ∧ (hasCol testCleanRoot RESPONSE_VAR = true →
         ∃ f, fsRoot ("." ++ "/test.csv") = some f ∧ hasCol f RESPONSE_VAR = true)) :=
  ⟨rfl, c3_dropped_and_response_columns fsRoot "." trainCleanRoot 3 testCleanRoot rfl⟩

/-- C4: every categorical-override column appearing in the loaded training
or test predictors has object dtype - whatever (numeric-looking) dtype the
raw file gave it - and the dtype-based partition of `make_preprocessor`
puts it in the categorical group, never in the numerical group. -/
theorem c4_categorical_override (fs : FS) (stem : String) (train_X : Frame) (train_y : Nat)
    (test_X : Frame) (c : String)
    (h : _clean_data fs stem = Except.ok (train_X, train_y, test_X))
    (hc : c ∈ CATEGORICALS) :
    (∀ d, (c, d) ∈ train_X.cols → d = Dtype.object)
  ∧ (∀ d, (c, d) ∈ test_X.cols → d = Dtype.object)
  ∧ (hasCol train_X c = true → c ∈ (make_preprocessor train_X).categorical_columns)
  ∧ c ∉ (make_preprocessor train_X).numerical_columns := by
  obtain ⟨f0, t1, g0, hf0, hresp, h3, h4, hg0, h6⟩ :=
    clean_data_ok fs stem train_X train_y test_X h
  have htr : ∀ d, (c, d) ∈ train_X.cols → d = Dtype.object := by
    intro d hd
    have h1 := drop_columns_mono _ _ _ (c, d) h4 hd
    have h2 := drop_columns_mono _ _ _ (c, d) h3 h1
    exact applyDtypeDict_object f0 c d hc h2
  have hteo : ∀ d, (c, d) ∈ test_X.cols → d = Dtype.object := by
    intro d hd
    exact applyDtypeDict_object g0 c d hc (drop_columns_mono _ _ _ (c, d) h6 hd)
  refine ⟨htr, hteo, ?_, ?_⟩
  · intro hhas
    rw [hasCol_iff] at hhas
    obtain ⟨⟨a, d⟩, hp, hpc⟩ := hhas
    simp only at hpc
    subst hpc
    have hobj : d = Dtype.object := htr d hp
    subst hobj
    simp only [make_preprocessor]
    exact List.mem_map.mpr ⟨(a, Dtype.object), List.mem_filter.mpr ⟨hp, by simp⟩, rfl⟩
  · intro hmem
    simp only [make_preprocessor] at hmem
    obtain ⟨⟨a, d⟩, hpf, hpc⟩ := List.mem_map.mp hmem
    obtain ⟨hpmem, hcond⟩ := List.mem_filter.mp hpf
    simp only at hpc
    subst hpc
    have hobj := htr d hpmem
    rw [hobj] at hcond
    simp at hcond

/-- Witness for C4 at the concrete root dataset and the override column
`Year_Built`, declared numeric in the raw files. -/
theorem c4_witness :
    _clean_data fsRoot "." = Except.ok (trainCleanRoot, 3, testCleanRoot)
  ∧ "Year_Built" ∈ CATEGORICALS
  ∧ ((∀ d, ("Year_Built", d) ∈ trainCleanRoot.cols → d = Dtype.object)
     ∧ (∀ d, ("Year_Built", d) ∈ testCleanRoot.cols → d = Dtype.object)
     ∧ (hasCol trainCleanRoot "Year_Built" = true →
          "Year_Built" ∈ (make_preprocessor trainCleanRoot).categorical_columns)
     ∧ "Year_Built" ∉ (make_preprocessor trainCleanRoot).numerical_columns) :=
  ⟨rfl, by decide,
   c4_categorical_override fsRoot "." trainCleanRoot 3 testCleanRoot "Year_Built" rfl
     (by decide)⟩

/-- If every fold number in `l1` loads successfully and fold `k` fails
with `e`, the cross-validation loop over `l1 ++ k :: l2` stops with `e`:
the folds after `k` are never attempted. -/
theorem cv_loop_append_error (fs : FS) (fR fT : Frame → Nat → ℝ)
    (l1 : List Nat) (l2 : List Nat) (k : Nat) (e : PyError)
    (h1 : ∀ j ∈ l1, ∃ v, get_fold_data fs j = Except.ok v)
    (hk : get_fold_data fs k = Except.error e) :
    ∀ acc, (cv_loop fs fR fT (l1 ++ k :: l2) acc).2 = Except.error e := by
  induction l1 with
  | nil =>
    intro acc
    simp only [List.nil_append, cv_loop, hk]
  | cons j t ih =>
    intro acc
    obtain ⟨v, hv⟩ := h1 j (List.mem_cons_self j t)
    obtain ⟨trX, trY, teX, teY⟩ := v
    simp only [List.cons_append, cv_loop, hv]
    exact ih (fun a ha => h1 a (List.mem_cons_of_mem j ha)) _

/-- C7: an absent input file or a missing declared response column makes
the loader fail at once with the underlying library's error, and in fold
mode the first failing fold aborts the entire ten-fold run with that very
error - no retry, fallback, partial result, or per-fold isolation. -/
theorem c7_failures_abort (fs : FS) (fR fT : Frame → Nat → ℝ) (stem : String)
    (k : Nat) (e : PyError) (hk1 : 1 ≤ k) (hk2 : k ≤ 10)
    (hfail : get_fold_data fs k = Except.error e)
    (hprev : ∀ j, 1 ≤ j → j < k → ∃ v, get_fold_data fs j = Except.ok v) :
    (fs (stem ++ "/train.csv") = none →
       _clean_data fs stem = Except.error (PyError.fileNotFound (stem ++ "/train.csv")))
  ∧ (∀ f, fs (stem ++ "/train.csv") = some f → hasCol f RESPONSE_VAR = false →
       _clean_data fs stem = Except.error (PyError.keyError RESPONSE_VAR))
  ∧ (main_run true fs fR fT).2 = Except.error e := by
  refine ⟨?_, ?_, ?_⟩
  · intro hnone
    unfold _clean_data read_csv
    rw [hnone]
  · intro f hsome hnoresp
    have hfalse : hasCol (applyDtypeDict f) RESPONSE_VAR = false := by
      rw [applyDtypeDict_hasCol]
      exact hnoresp
    unfold _clean_data read_csv
    rw [hsome]
    simp [hfalse]
  · have hmain : (main_run true fs fR fT).2 =
        (cv_loop fs fR fT ((List.range 10).map (fun k => k + 1)) []).2 := rfl
    have hlist : (List.range 10).map (fun k => k + 1) = [1, 2, 3, 4, 5, 6, 7, 8, 9, 10] := by
      decide
    rw [hmain, hlist]
    interval_cases k
    · exact cv_loop_append_error fs fR fT [] [2, 3, 4, 5, 6, 7, 8, 9, 10] 1 e
        (by simp) hfail []
    · exact cv_loop_append_error fs fR fT [1] [3, 4, 5, 6, 7, 8, 9, 10] 2 e
        (by intro j hj; fin_cases hj <;> exact hprev _ (by norm_num) (by norm_num)) hfail []
    · exact cv_loop_append_error fs fR fT [1, 2] [4, 5, 6, 7, 8, 9, 10] 3 e
        (by intro j hj; fin_cases hj <;> exact hprev _ (by norm_num) (by norm_num)) hfail []
    · exact cv_loop_append_error fs fR fT [1, 2, 3] [5, 6, 7, 8, 9, 10] 4 e
        (by intro j hj; fin_cases hj <;> exact hprev _ (by norm_num) (by norm_num)) hfail []
    · exact cv_loop_append_error fs fR fT [1, 2, 3, 4] [6, 7, 8, 9, 10] 5 e
        (by intro j hj; fin_cases hj <;> exact hprev _ (by norm_num) (by norm_num)) hfail []
    · exact cv_loop_append_error fs fR fT [1, 2, 3, 4, 5] [7, 8, 9, 10] 6 e
        (by intro j hj; fin_cases hj <;> exact hprev _ (by norm_num) (by norm_num)) hfail []
    · exact cv_loop_append_error fs fR fT [1, 2, 3, 4, 5, 6] [8, 9, 10] 7 e
        (by intro j hj; fin_cases hj <;> exact hprev _ (by norm_num) (by norm_num)) hfail []
    · exact cv_loop_append_error fs fR fT [1, 2, 3, 4, 5, 6, 7] [9, 10] 8 e
        (by intro j hj; fin_cases hj <;> exact hprev _ (by norm_num) (by norm_num)) hfail []
    · exact cv_loop_append_error fs fR fT [1, 2, 3, 4, 5, 6, 7, 8] [10] 9 e
        (by intro j hj; fin_cases hj <;> exact hprev _ (by norm_num) (by norm_num)) hfail []
    · exact cv_loop_append_error fs fR fT [1, 2, 3, 4, 5, 6, 7, 8, 9] [] 10 e
        (by intro j hj; fin_cases hj <;> exact hprev _ (by norm_num) (by norm_num)) hfail []

/-- Witness for C7: the empty file system fails at fold 1 with the missing
`train.csv`, and the whole ten-fold run aborts with that error. -/
theorem c7_witness :
    get_fold_data fsEmpty 1 =
      Except.error (PyError.fileNotFound "project1/proj1/fold1/train.csv")
  ∧ ((fsEmpty ("." ++ "/train.csv") = none →
        _clean_data fsEmpty "." = Except.error (PyError.fileNotFound ("." ++ "/train.csv")))
     ∧ (∀ f, fsEmpty ("." ++ "/train.csv") = some f → hasCol f RESPONSE_VAR = false →
        _clean_data fsEmpty "." = Except.error (PyError.keyError RESPONSE_VAR))
     ∧ (main_run true fsEmpty zeroModel zeroModel).2 =
         Except.error (PyError.fileNotFound "project1/proj1/fold1/train.csv")) :=
  ⟨rfl,
   c7_failures_abort fsEmpty zeroModel zeroModel "." 1
     (PyError.fileNotFound "project1/proj1/fold1/train.csv") (by norm_num) (by norm_num) rfl
     (fun j hj1 hj2 => absurd hj1 (by omega))⟩

/-- Every element is bounded by `listMax`. -/
theorem le_listMax (l : List ℚ) : ∀ x ∈ l, x ≤ listMax l := by
  induction l with
  | nil => intro x hx; simp at hx
  | cons a t ih =>
    intro x hx
    cases t with
    | nil =>
      simp only [List.mem_singleton] at hx
      subst hx
      simp [listMax]
    | cons b u =>
      rcases List.mem_cons.mp hx with hxa | hxt
      · subst hxa
        simp only [listMax]
        exact le_max_left _ _
      · exact le_trans (ih x hxt) (by simp only [listMax]; exact le_max_right _ _)

/-- `npArgmax` is a valid index of a nonempty list. -/
theorem npArgmax_lt_length (l : List ℚ) (h : l ≠ []) : npArgmax l < l.length := by
  induction l with
  | nil => exact absurd rfl h
  | cons a t ih =>
    cases t with
    | nil => simp [npArgmax]
    | cons b u =>
      by_cases hgt : listMax (b :: u) > a
      · simp only [npArgmax, if_pos hgt, List.length_cons]
        exact Nat.succ_lt_succ (ih (by simp))
      · simp [npArgmax, if_neg hgt]

/-- The element at `npArgmax` is the maximum. -/
theorem npArgmax_get (l : List ℚ) (h : l ≠ []) :
    l.get? (npArgmax l) = some (listMax l) := by
  induction l with
  | nil => exact absurd rfl h
  | cons a t ih =>
    cases t with
    | nil => simp [npArgmax, listMax]
    | cons b u =>
      by_cases hgt : listMax (b :: u) > a
      · simp only [npArgmax, if_pos hgt]
        rw [List.get?_cons_succ, ih (by simp)]
        simp only [listMax]
        rw [max_eq_right (le_of_lt hgt)]
      · simp only [npArgmax, if_neg hgt]
        rw [List.get?_cons_zero]
        simp only [listMax]
        rw [max_eq_left (not_lt.mp hgt)]

/-- `npArgmax` is the FIRST index achieving the maximum: every earlier
position holds a strictly smaller value. -/
theorem npArgmax_first (l : List ℚ) : ∀ j, j < npArgmax l → l.get? j ≠ some (listMax l) := by
  induction l with
  | nil => intro j hj; simp [npArgmax] at hj
  | cons a t ih =>
    cases t with
    | nil => intro j hj; simp [npArgmax] at hj
    | cons b u =>
      intro j hj
      by_cases hgt : listMax (b :: u) > a
      · simp only [npArgmax, if_pos hgt] at hj
        have hmax : listMax (a :: b :: u) = listMax (b :: u) := by
          simp only [listMax]
          exact max_eq_right (le_of_lt hgt)
        cases j with
        | zero =>
          rw [List.get?_cons_zero, hmax]
          intro hcontra
          injection hcontra with hc
          rw [← hc] at hgt
          exact lt_irrefl a hgt
        | succ j' =>
          rw [List.get?_cons_succ, hmax]
          exact ih j' (Nat.lt_of_succ_lt_succ hj)
      · simp only [npArgmax, if_neg hgt] at hj
        exact absurd hj (Nat.not_lt_zero j)

/-- C1: on a 10-value RMSE sequence, `summarize_rmse` splits it into the
element slices `[0,5)` and `[5,10)`, and each half's reported worst-fold
number is (first position of that half's maximum) + (half start offset) +
1. -/
theorem c1_summarize_split (rmse : List ℚ) (h : rmse.length = 10) :
    ∃ s1 s2 : HalfSummary, summarize_rmse rmse = [s1, s2]
      ∧ s1.half.length = 5
      ∧ s2.half.length = 5
      ∧ (∀ i, i < 5 → s1.half.get? i = rmse.get? i)
      ∧ (∀ i, i < 5 → s2.half.get? i = rmse.get? (5 + i))
      ∧ (∃ p, p < 5 ∧ s1.half.get? p = some (listMax s1.half)
           ∧ (∀ j, j < p → s1.half.get? j ≠ some (listMax s1.half))
           ∧ s1.worstFold = p + 0 + 1)
      ∧ (∃ p, p < 5 ∧ s2.half.get? p = some (listMax s2.half)
           ∧ (∀ j, j < p → s2.half.get? j ≠ some (listMax s2.half))
           ∧ s2.worstFold = p + 5 + 1) := by
  have hn2 : rmse.length / 2 = 5 := by rw [h]
  have hs : summarize_rmse rmse =
      [ { half := rmse.take 5, rangeLo := listMin (rmse.take 5),
          rangeHi := listMax (rmse.take 5), meanVal := meanQ (rmse.take 5),
          worstFold := npArgmax (rmse.take 5) + 0 + 1 },
        { half := rmse.drop 5, rangeLo := listMin (rmse.drop 5),
          rangeHi := listMax (rmse.drop 5), meanVal := meanQ (rmse.drop 5),
          worstFold := npArgmax (rmse.drop 5) + 5 + 1 } ] := by
    simp only [summarize_rmse, hn2]
  have hlen1 : (rmse.take 5).length = 5 := by
    rw [List.length_take, h]
    decide
  have hlen2 : (rmse.drop 5).length = 5 := by
    rw [List.length_drop, h]
  have hne1 : rmse.take 5 ≠ [] := by
    intro hc
    rw [hc] at hlen1
    simp at hlen1
  have hne2 : rmse.drop 5 ≠ [] := by
    intro hc
    rw [hc] at hlen2
    simp at hlen2
  refine ⟨_, _, hs, hlen1, hlen2, ?_, ?_, ?_, ?_⟩
  · intro i hi
    exact List.get?_take hi
  · intro i _
    exact List.get?_drop rmse 5 i
  · refine ⟨npArgmax (rmse.take 5), ?_, npArgmax_get _ hne1, npArgmax_first _, rfl⟩
    have hlt := npArgmax_lt_length _ hne1
    rw [hlen1] at hlt
    exact hlt
  · refine ⟨npArgmax (rmse.drop 5), ?_, npArgmax_get _ hne2, npArgmax_first _, rfl⟩
    have hlt := npArgmax_lt_length _ hne2
    rw [hlen2] at hlt
    exact hlt

/-- Witness for C1 at a concrete 10-value RMSE sequence. -/
theorem c1_witness :
    ([3, 1, 4, 1, 5, 9, 2, 6, 5, 3] : List ℚ).length = 10
  ∧ (∃ s1 s2 : HalfSummary,
      summarize_rmse ([3, 1, 4, 1, 5, 9, 2, 6, 5, 3] : List ℚ) = [s1, s2]
      ∧ s1.half.length = 5
      ∧ s2.half.length = 5
      ∧ (∀ i, i < 5 → s1.half.get? i = ([3, 1, 4, 1, 5, 9, 2, 6, 5, 3] : List ℚ).get? i)
      ∧ (∀ i, i < 5 → s2.half.get? i = ([3, 1, 4, 1, 5, 9, 2, 6, 5, 3] : List ℚ).get? (5 + i))
      ∧ (∃ p, p < 5 ∧ s1.half.get? p = some (listMax s1.half)
           ∧ (∀ j, j < p → s1.half.get? j ≠ some (listMax s1.half))
           ∧ s1.worstFold = p + 0 + 1)
      ∧ (∃ p, p < 5 ∧ s2.half.get? p = some (listMax s2.half)
           ∧ (∀ j, j < p → s2.half.get? j ≠ some (listMax s2.half))
           ∧ s2.worstFold = p + 5 + 1)) :=
  ⟨rfl, c1_summarize_split ([3, 1, 4, 1, 5, 9, 2, 6, 5, 3] : List ℚ) rfl⟩

/-- Summing a constant-shifted list. -/
theorem sum_map_sub_const (l : List ℝ) (c : ℝ) :
    (l.map (fun x => x - c)).sum = l.sum - l.length * c := by
  induction l with
  | nil => simp
  | cons a t ih =>
    simp only [List.map_cons, List.sum_cons, List.length_cons, ih]
    push_cast
    ring

/-- Summing a list divided pointwise by a constant. -/
theorem sum_map_div_const (l : List ℝ) (f : ℝ → ℝ) (s : ℝ) :
    (l.map (fun x => f x / s)).sum = (l.map f).sum / s := by
  induction l with
  | nil => simp
  | cons a t ih =>
    simp only [List.map_cons, List.sum_cons, ih]
    ring

/-- Population variance is nonnegative. -/
theorem popVar_nonneg (l : List ℝ) : 0 ≤ popVar l := by
  unfold popVar
  apply div_nonneg
  · apply List.sum_nonneg
    intro x hx
    obtain ⟨y, _, rfl⟩ := List.mem_map.mp hx
    positivity
  · positivity

/-- Transforming a column by the scaler fitted on it always centers it:
the transformed column has mean exactly 0. -/
theorem standardScaler_mean (l : List ℝ) (h : l ≠ []) :
    meanR (standardScaler_transform l) = 0 := by
  have hn : (l.length : ℝ) ≠ 0 := by
    simp only [ne_eq, Nat.cast_eq_zero, List.length_eq_zero]
    exact h
  have hzero : l.sum - (l.length : ℝ) * meanR l = 0 := by
    unfold meanR
    field_simp
  unfold meanR standardScaler_transform
  rw [List.length_map, sum_map_div_const l (fun x => x - meanR l) (scalerScale l),
    sum_map_sub_const, hzero, zero_div, zero_div]

/-- Transforming a column of nonzero variance by the scaler fitted on it
yields population variance exactly 1. -/
theorem standardScaler_var (l : List ℝ) (h : l ≠ []) (hv : popVar l ≠ 0) :
    popVar (standardScaler_transform l) = 1 := by
  have hn : (l.length : ℝ) ≠ 0 := by
    simp only [ne_eq, Nat.cast_eq_zero, List.length_eq_zero]
    exact h
  have hvpos : 0 < popVar l := lt_of_le_of_ne (popVar_nonneg l) (Ne.symm hv)
  have hscale : scalerScale l = Real.sqrt (popVar l) := if_neg hv
  have hs2 : scalerScale l ^ 2 = popVar l := by
    rw [hscale, Real.sq_sqrt (popVar_nonneg l)]
  have hmean0 := standardScaler_mean l h
  unfold popVar
  rw [hmean0]
  unfold standardScaler_transform
  rw [List.length_map, List.map_map]
  have hcomp : ((fun x => (x - 0) ^ 2) ∘ fun x => (x - meanR l) / scalerScale l)
      = fun x => ((x - meanR l) ^ 2) / scalerScale l ^ 2 := by
    funext x
    simp only [Function.comp_apply, sub_zero]
    ring
  rw [hcomp, sum_map_div_const l (fun x => (x - meanR l) ^ 2) (scalerScale l ^ 2), hs2]
  have hS : (l.map (fun x => (x - meanR l) ^ 2)).sum = popVar l * l.length := by
    unfold popVar
    field_simp
  rw [hS]
  field_simp

/-- C8 (amended): after fitting on a training column of nonzero variance,
the scaler's transform of that same column has mean exactly 0 and
population standard deviation exactly 1 (the real-valued model of the
floating-point "approximately"). -/
theorem c8_scaler_standardizes (l : List ℝ) (h0 : l ≠ []) (hv : popVar l ≠ 0) :
    meanR (standardScaler_transform l) = 0
  ∧ stdR (standardScaler_transform l) = 1 := by
  refine ⟨standardScaler_mean l h0, ?_⟩
  unfold stdR
  rw [standardScaler_var l h0 hv, Real.sqrt_one]

/-- Witness for the amended C8 at the concrete column `[1, 3]`. -/
theorem c8_witness :
    ([1, 3] : List ℝ) ≠ []
  ∧ popVar ([1, 3] : List ℝ) ≠ 0
  ∧ (meanR (standardScaler_transform ([1, 3] : List ℝ)) = 0
     ∧ stdR (standardScaler_transform ([1, 3] : List ℝ)) = 1) := by
  have h0 : ([1, 3] : List ℝ) ≠ [] := by simp
  have hm : meanR ([1, 3] : List ℝ) = 2 := by
    norm_num [meanR]
  have hv : popVar ([1, 3] : List ℝ) ≠ 0 := by
    norm_num [popVar, hm]
  exact ⟨h0, hv, c8_scaler_standardizes [1, 3] h0 hv⟩

/-- C8 (counterexample): a constant numerical column is transformed to all
zeros (sklearn replaces the zero scale by 1), so its transformed standard
deviation is 0, not approximately 1, refuting the claim for every
numerical column. -/
theorem c8_counterexample :
    standardScaler_transform ([5, 5] : List ℝ) = [0, 0]
  ∧ stdR (standardScaler_transform ([5, 5] : List ℝ)) = 0
  ∧ ((0 : ℝ) ≠ 1) := by
  have hm : meanR ([5, 5] : List ℝ) = 5 := by
    norm_num [meanR]
  have hv : popVar ([5, 5] : List ℝ) = 0 := by
    norm_num [popVar, hm]
  have hs : scalerScale ([5, 5] : List ℝ) = 1 := by
    simp [scalerScale, hv]
  have ht : standardScaler_transform ([5, 5] : List ℝ) = [0, 0] := by
    simp [standardScaler_transform, hm, hs]
  refine ⟨ht, ?_, by norm_num⟩
  rw [ht]
  have hz : popVar ([0, 0] : List ℝ) = 0 := by
    norm_num [popVar, meanR]
  rw [stdR, hz, Real.sqrt_zero]
